import Mathlib

/-!
Verification of the packaging descriptor `setup.py` of the s2geometry
binding package. The descriptor computes an interpreter version-range
string from the running interpreter's version, assembles a fixed list of
nine cmake configuration options, and declares a single native-extension
build target handed to the packaging framework.

The embedding below mirrors `src/setup.py` line by line: Python
f-strings become explicit string concatenation with `toString` on `Nat`,
`sys.version_info` becomes the `VersionInfo` structure, and
`pathlib.Path` values become `PyPath` (an absolute-flag plus a list of
path components, with `parent` dropping the last component and
`absolute` prepending the working directory to relative paths, as
`pathlib` does).
-/

/-- The running interpreter's version tuple, as exposed by
`sys.version_info`: major, minor and micro components. -/
structure VersionInfo where
  major : Nat
  minor : Nat
  micro : Nat
deriving DecidableEq, Repr

/-- Embeds `PY_VERSION_MIN = f"{sys.version_info.major}.{sys.version_info.minor}"`. -/
def PY_VERSION_MIN (v : VersionInfo) : String :=
  toString v.major ++ "." ++ toString v.minor

/-- Embeds `PY_VERSION_MAX = f"{sys.version_info.major}.{sys.version_info.minor+1}"`. -/
def PY_VERSION_MAX (v : VersionInfo) : String :=
  toString v.major ++ "." ++ toString (v.minor + 1)

/-- Embeds `PY_VERSION = f"{PY_VERSION_MIN}...<{PY_VERSION_MAX}"`: the
minimum, the literal separator `...<`, then the maximum. -/
def PY_VERSION (v : VersionInfo) : String :=
  PY_VERSION_MIN v ++ "...<" ++ PY_VERSION_MAX v

/-- Embeds the `cmake_configure_options` list passed to the
`CMakeExtension` constructor: the version-lookup option built from
`PY_VERSION`, followed by eight fixed literal options, in source order. -/
def cmake_configure_options (v : VersionInfo) : List String :=
  [ "-DPython_LOOKUP_VERSION=" ++ PY_VERSION v,
    "-DPython3_FIND_VIRTUALENV:BOOL=ON",
    "-DPython3_FIND_STRATEGY=LOCATION",
    "-DCALL_FROM_SETUP_PY:BOOL=ON",
    "-DBUILD_SHARED_LIBS:BOOL=OFF",
    "-DCMAKE_CXX_STANDARD=17",
    "-DCMAKE_POSITION_INDEPENDENT_CODE=ON",
    "-DBUILD_TESTS=OFF",
    "-DWITH_PYTHON=ON" ]

/-- A `pathlib.Path` value: whether the path is absolute, and its
components. -/
structure PyPath where
  absolute : Bool
  parts : List String
deriving DecidableEq, Repr

/-- Embeds `Path.parent`: drop the final path component. -/
def PyPath.parentDir (p : PyPath) : PyPath :=
  ⟨p.absolute, p.parts.dropLast⟩

/-- Embeds `Path.absolute()`: an absolute path is returned unchanged; a
relative path is anchored at the process working directory. -/
def PyPath.absolutize (cwd p : PyPath) : PyPath :=
  if p.absolute then p else ⟨cwd.absolute, cwd.parts ++ p.parts⟩

/-- Embeds `source_dir=str(Path(__file__).parent.absolute())`: the parent
of the descriptor file, made absolute relative to the working directory. -/
def source_dir (cwd file : PyPath) : PyPath :=
  PyPath.absolutize cwd (PyPath.parentDir file)

/-- The `cmake_build_extension.CMakeExtension` descriptor: logical name,
install path segment (`install_prefix` in the source), source directory
and configuration option list. -/
structure CMakeExtension where
  name : String
  install_pfx : String
  src_dir : PyPath
  configure_options : List String
deriving DecidableEq, Repr

/-- The registered custom build step; the source registers
`cmake_build_extension.BuildExtension` under the key `build_ext`. -/
inductive BuildStep where
  | BuildExtension : BuildStep
deriving DecidableEq, Repr

/-- The arguments handed to `setuptools.setup`: the extension list and
the command-class map. -/
structure SetupArgs where
  ext_modules : List CMakeExtension
  cmdclass : List (String × BuildStep)
deriving DecidableEq, Repr

/-- Embeds the single `CMakeExtension(...)` constructed in the source:
name `"SwigBindings"`, install prefix `"s2geometry"`, the descriptor
file's own directory, and the option list. -/
def swigBindingsExtension (v : VersionInfo) (cwd file : PyPath) : CMakeExtension :=
  { name := "SwigBindings"
    install_pfx := "s2geometry"
    src_dir := source_dir cwd file
    configure_options := cmake_configure_options v }

/-- Embeds the `setuptools.setup(...)` call: one extension module and one
registered build step. -/
def setup_args (v : VersionInfo) (cwd file : PyPath) : SetupArgs :=
  { ext_modules := [swigBindingsExtension v cwd file]
    cmdclass := [("build_ext", BuildStep.BuildExtension)] }

/-- C1 counterexample: at interpreter version (3, 11) the descriptor
produces the string `"3.11...<3.12"`; it is not the claim's literal
`"3.11...<3.12>"`, nor the string `"3.11...3.12"` given by reading the
claim's format with angle brackets as placeholders. -/
theorem PY_VERSION_claim_literal_fails :
    PY_VERSION ⟨3, 11, 0⟩ = "3.11...<3.12" ∧
    PY_VERSION ⟨3, 11, 0⟩ ≠ "3.11...<3.12>" ∧
    PY_VERSION ⟨3, 11, 0⟩ ≠ "3.11...3.12" := by
  refine ⟨rfl, ?_, ?_⟩ <;> decide

/-- C1 amended: for every host interpreter version, the produced
version-range string is `<major>.<minor>` followed by the literal
separator `...<` followed by `<major>.<minor+1>`; at version (3, 11) it
is exactly `"3.11...<3.12"`. -/
theorem PY_VERSION_format (v : VersionInfo) :
    PY_VERSION v =
      toString v.major ++ "." ++ toString v.minor ++ "...<" ++
        toString v.major ++ "." ++ toString (v.minor + 1) ∧
    PY_VERSION ⟨3, 11, 0⟩ = "3.11...<3.12" := by
  constructor
  · simp [PY_VERSION, PY_VERSION_MIN, PY_VERSION_MAX, String.append_assoc]
  · rfl

/-- The nine configuration options enumerated in spec section 4.1, as
abstract kinds, in the spec's order. -/
inductive SpecOption where
  | versionRange
  | virtualenvLookup
  | lookupStrategy
  | fromPackagingFlag
  | sharedLibs
  | langStandard
  | positionIndependent
  | buildTests
  | bindingGen
deriving DecidableEq, Repr

/-- The spec's section 4.1 enumeration, in its stated order. -/
def spec_enumeration : List SpecOption :=
  [ .versionRange, .virtualenvLookup, .lookupStrategy, .fromPackagingFlag,
    .sharedLibs, .langStandard, .positionIndependent, .buildTests, .bindingGen ]

/-- Classifies a forwarded cmake option string as one of the spec's nine
abstract option kinds, by the cmake variable it sets: any option carrying
the interpreter version-lookup key is the version-range option; the
remaining eight are recognised by their full literal text. -/
def optionKind (s : String) : Option SpecOption :=
  if "-DPython_LOOKUP_VERSION=".data.isPrefixOf s.data then some .versionRange
  else if s = "-DPython3_FIND_VIRTUALENV:BOOL=ON" then some .virtualenvLookup
  else if s = "-DPython3_FIND_STRATEGY=LOCATION" then some .lookupStrategy
  else if s = "-DCALL_FROM_SETUP_PY:BOOL=ON" then some .fromPackagingFlag
  else if s = "-DBUILD_SHARED_LIBS:BOOL=OFF" then some .sharedLibs
  else if s = "-DCMAKE_CXX_STANDARD=17" then some .langStandard
  else if s = "-DCMAKE_POSITION_INDEPENDENT_CODE=ON" then some .positionIndependent
  else if s = "-DBUILD_TESTS=OFF" then some .buildTests
  else if s = "-DWITH_PYTHON=ON" then some .bindingGen
  else none

theorem versionRange_key_isPrefixOf (x : String) :
    ("-DPython_LOOKUP_VERSION=".data.isPrefixOf
      ("-DPython_LOOKUP_VERSION=" ++ x).data) = true := by
  rw [String.data_append, List.isPrefixOf_iff_prefix]
  exact List.prefix_append _ _

theorem optionKind_versionRange_entry (x : String) :
    optionKind ("-DPython_LOOKUP_VERSION=" ++ x) = some SpecOption.versionRange := by
  simp [optionKind, versionRange_key_isPrefixOf]

/-- C2: for every host environment, the assembled option list classifies,
entry by entry and in order, exactly onto the nine options of spec
section 4.1 — nine entries, stable order, no other entries. -/
theorem cmake_configure_options_matches_spec_enumeration (v : VersionInfo) :
    List.map optionKind (cmake_configure_options v) =
      List.map some spec_enumeration ∧
    (cmake_configure_options v).length = spec_enumeration.length := by
  constructor
  · simp only [cmake_configure_options, spec_enumeration, List.map,
      optionKind_versionRange_entry]
    decide
  · rfl

/-- C3: in every invocation, the fifth forwarded option is the fixed
literal turning shared libraries off, and the seventh is the fixed
literal turning position-independent code on, independent of the host
environment. -/
theorem shared_libs_off_and_pic_on (v : VersionInfo) :
    (cmake_configure_options v)[4]? = some "-DBUILD_SHARED_LIBS:BOOL=OFF" ∧
    (cmake_configure_options v)[6]? = some "-DCMAKE_POSITION_INDEPENDENT_CODE=ON" := by
  exact ⟨rfl, rfl⟩

/-- C4: for every host interpreter version, the upper bound of the
version range keeps the same major component and has minor component
exactly `minor + 1`; at minor 99 it is `"<major>.100"`, concretely
`"3.100"` for major 3, and not the rolled-over `"4.0"`. -/
theorem PY_VERSION_MAX_no_rollover (v : VersionInfo) :
    PY_VERSION_MAX v = toString v.major ++ "." ++ toString (v.minor + 1) ∧
    PY_VERSION_MAX ⟨v.major, 99, v.micro⟩ = toString v.major ++ "." ++ "100" ∧
    PY_VERSION_MAX ⟨3, 99, 0⟩ = "3.100" ∧ PY_VERSION_MAX ⟨3, 99, 0⟩ ≠ "4.0" := by
  refine ⟨rfl, ?_, by decide, by decide⟩
  show toString v.major ++ "." ++ toString (99 + 1) = toString v.major ++ "." ++ "100"
  congr 1

/-- C5: for an absolute descriptor-file path (as `__file__` is for the
running script), the declared source directory is exactly the directory
containing the descriptor file, it is absolute, and it does not depend
on the working directory the packaging tool is run from. -/
theorem source_dir_is_descriptor_parent (cwd₁ cwd₂ : PyPath) (parts : List String) :
    source_dir cwd₁ ⟨true, parts⟩ = PyPath.parentDir ⟨true, parts⟩ ∧
    (source_dir cwd₁ ⟨true, parts⟩).absolute = true ∧
    source_dir cwd₁ ⟨true, parts⟩ = source_dir cwd₂ ⟨true, parts⟩ := by
  refine ⟨?_, ?_, ?_⟩ <;>
    simp [source_dir, PyPath.absolutize, PyPath.parentDir]

/-- Modelled from the spec: the extension-build machinery
(`cmake_build_extension.BuildExtension`, whose code is not under src/)
"must invoke the external native build toolchain exactly once per
package build" — it runs the toolchain once per declared extension
module when the custom build step is registered under `build_ext`, and
never otherwise. -/
def toolchain_invocations (args : SetupArgs) : Nat :=
  if ("build_ext", BuildStep.BuildExtension) ∈ args.cmdclass then
    args.ext_modules.length
  else 0

/-- C6: every invocation declares exactly one native-extension target,
registers exactly one custom build step for it, and hence drives exactly
one invocation of the external native build toolchain. -/
theorem single_extension_single_build_step (v : VersionInfo) (cwd file : PyPath) :
    (setup_args v cwd file).ext_modules.length = 1 ∧
    (setup_args v cwd file).cmdclass = [("build_ext", BuildStep.BuildExtension)] ∧
    toolchain_invocations (setup_args v cwd file) = 1 := by
  refine ⟨rfl, rfl, ?_⟩
  simp [toolchain_invocations, setup_args]

/-- The ambient state of one run of the descriptor: the interpreter
version, the working directory, the descriptor file's path, and the
process environment variables. -/
structure HostEnv where
  version : VersionInfo
  cwd : PyPath
  descriptor : PyPath
  env_vars : List (String × String)

/-- Embeds the whole configuration-assembly layer as a function of the
ambient host state: the source reads `sys.version_info` and `__file__`
(resolved against the working directory when relative); it never touches
environment variables — there is no `os.environ` access anywhere in the
file — so `env_vars` does not occur on the right-hand side. -/
def assemble (h : HostEnv) : SetupArgs :=
  setup_args h.version h.cwd h.descriptor

/-- C7: two runs with the same interpreter version and the same
(absolute) descriptor location assemble identical build-target
descriptors, whatever the environment variables and working directories
of the two runs are: the assembly layer neither reads nor writes
environment state. -/
theorem assembly_ignores_env_vars (ver : VersionInfo) (cwd₁ cwd₂ : PyPath)
    (parts : List String) (e₁ e₂ : List (String × String)) :
    assemble ⟨ver, cwd₁, ⟨true, parts⟩, e₁⟩ =
      assemble ⟨ver, cwd₂, ⟨true, parts⟩, e₂⟩ := by
  simp [assemble, setup_args, swigBindingsExtension, source_dir,
    PyPath.absolutize, PyPath.parentDir]

/-- Modelled from the spec: whether a source directory holds a
recognizable native-project build definition — a `CMakeLists.txt` at its
root ("the folder where the main CMakeLists.txt is stored"); the check
itself lives in the downstream toolchain, not under src/. -/
def has_build_def (fs : List PyPath) (dir : PyPath) : Bool :=
  fs.contains ⟨dir.absolute, dir.parts ++ ["CMakeLists.txt"]⟩

/-- Modelled from the spec: the build step's execution
(`cmake_build_extension.BuildExtension` driving the native toolchain,
not under src/). Per spec sections 4 and 7: with no recognizable build
definition in the source directory the invocation fails with the
toolchain's diagnostic and produces nothing; on success the compiled
module is placed under the extension's install prefix. -/
def run_build_ext (fs : List PyPath) (ext : CMakeExtension) : Except String (List PyPath) :=
  if has_build_def fs ext.src_dir then
    Except.ok [⟨true, [ext.install_pfx]⟩]
  else
    Except.error "does not appear to contain CMakeLists.txt"

/-- C8: if the source directory lacks a recognizable native-project
build definition, the invocation fails with an error and yields no
install-tree artifact at all — there is no partial-success outcome: the
result is either a full artifact list or an error. -/
theorem missing_build_def_fails_without_artifacts (fs : List PyPath)
    (ext : CMakeExtension) (h : has_build_def fs ext.src_dir = false) :
    (∃ e, run_build_ext fs ext = Except.error e) ∧
    (∀ arts, run_build_ext fs ext ≠ Except.ok arts) := by
  refine ⟨⟨"does not appear to contain CMakeLists.txt", ?_⟩, ?_⟩ <;>
    simp [run_build_ext, h]

/-- C8 witness: on an empty filesystem the declared extension's source
directory has no build definition, and the build invocation fails
producing no artifact. -/
theorem missing_build_def_witness :
    has_build_def []
        (CMakeExtension.mk "SwigBindings" "s2geometry" ⟨true, ["s2"]⟩ []).src_dir = false ∧
    ((∃ e, run_build_ext [] ⟨"SwigBindings", "s2geometry", ⟨true, ["s2"]⟩, []⟩ =
        Except.error e) ∧
      (∀ arts, run_build_ext [] ⟨"SwigBindings", "s2geometry", ⟨true, ["s2"]⟩, []⟩ ≠
        Except.ok arts)) :=
  ⟨by decide,
    missing_build_def_fails_without_artifacts []
      ⟨"SwigBindings", "s2geometry", ⟨true, ["s2"]⟩, []⟩ (by decide)⟩

/-- C9: in every invocation the extension target's logical name is the
fixed literal `"SwigBindings"` and its install prefix is the fixed
literal `"s2geometry"`, independent of the host environment. -/
theorem extension_name_and_install_location (v : VersionInfo) (cwd file : PyPath) :
    (swigBindingsExtension v cwd file).name = "SwigBindings" ∧
    (swigBindingsExtension v cwd file).install_pfx = "s2geometry" :=
  ⟨rfl, rfl⟩

/-- C10: of the nine forwarded options only the first depends on the
host, and only through the interpreter's major and minor components:
versions differing solely in micro produce identical option lists, the
tail of the list is a fixed literal sequence of eight options, and the
head is the version-range option computed from major and minor alone. -/
theorem only_version_range_depends_on_host (M m μ₁ μ₂ : Nat) :
    cmake_configure_options ⟨M, m, μ₁⟩ = cmake_configure_options ⟨M, m, μ₂⟩ ∧
    List.drop 1 (cmake_configure_options ⟨M, m, μ₁⟩) =
      [ "-DPython3_FIND_VIRTUALENV:BOOL=ON",
        "-DPython3_FIND_STRATEGY=LOCATION",
        "-DCALL_FROM_SETUP_PY:BOOL=ON",
        "-DBUILD_SHARED_LIBS:BOOL=OFF",
        "-DCMAKE_CXX_STANDARD=17",
        "-DCMAKE_POSITION_INDEPENDENT_CODE=ON",
        "-DBUILD_TESTS=OFF",
        "-DWITH_PYTHON=ON" ] ∧
    (cmake_configure_options ⟨M, m, μ₁⟩)[0]? =
      some ("-DPython_LOOKUP_VERSION=" ++ PY_VERSION ⟨M, m, 0⟩) :=
  ⟨rfl, rfl, rfl⟩
